import Mathlib

/-!
Shallow embedding of the Pi Shield worker pipeline
(`backend/worker/worker.py`): the credibility scoring engine, the video
pipeline's frame sampling and metadata probing, the report upsert, and the
job status state machine.  Python floats are modelled as rationals, Python
strings as Lean strings, and the dynamic factor messages as an inductive
factor type carrying the same information as the formatted strings.
-/

namespace PiShield

/-- `needle` occurs as a contiguous sublist of `hay`. -/
def listInfix (needle : List Char) : List Char → Bool
  | [] => needle.isEmpty
  | c :: rest => needle.isPrefixOf (c :: rest) || listInfix needle rest

/-- Python substring test `needle in hay` on strings. -/
def containsSub (needle hay : String) : Bool :=
  listInfix needle.toList hay.toList

/-- Python `str.split()` with no argument: split on whitespace, dropping
empty segments. -/
def pySplit (s : String) : List String :=
  (s.split Char.isWhitespace).filter (fun w => w ≠ "")

/-- Python slice `l[::k]` for a positive step `k`: the elements whose index
is a multiple of `k`, in order. -/
def pySliceStep {α : Type} (l : List α) (k : Nat) : List α :=
  (l.enum.filter (fun p => p.1 % k = 0)).map Prod.snd

/-- `score = max(0.0, min(1.0, score))` in the three scoring functions. -/
def clamp01 (q : ℚ) : ℚ := max 0 (min 1 q)

/-- Google Vision likelihood enum, as used for face attributes and
safe-search categories. -/
inductive Likelihood
  | UNKNOWN
  | VERY_UNLIKELY
  | UNLIKELY
  | POSSIBLE
  | LIKELY
  | VERY_LIKELY
deriving DecidableEq, Repr

/-- `.name` of the protobuf enum value, as stored by
`_process_face_annotation` and `_process_safe_search`. -/
def Likelihood.name : Likelihood → String
  | .UNKNOWN => "UNKNOWN"
  | .VERY_UNLIKELY => "VERY_UNLIKELY"
  | .UNLIKELY => "UNLIKELY"
  | .POSSIBLE => "POSSIBLE"
  | .LIKELY => "LIKELY"
  | .VERY_LIKELY => "VERY_LIKELY"

/-- One face record as produced by `_process_face_annotation`. -/
structure FaceSignal where
  detection_confidence : ℚ
  joy_likelihood : Likelihood
  anger_likelihood : Likelihood
  surprise_likelihood : Likelihood
  under_exposed_likelihood : Likelihood
  blurred_likelihood : Likelihood
  headwear_likelihood : Likelihood
deriving DecidableEq, Repr

/-- Safe-search record as produced by `_process_safe_search`. -/
structure SafeSearch where
  adult : Likelihood
  spoof : Likelihood
  medical : Likelihood
  violence : Likelihood
  racy : Likelihood
deriving DecidableEq, Repr

/-- One label annotation `{description, score}`. -/
structure Label where
  description : String
  score : ℚ
deriving DecidableEq, Repr

/-- One localized object annotation `{name, score}`. -/
structure ObjSignal where
  name : String
  score : ℚ
deriving DecidableEq, Repr

/-- The `vision_results` dict assembled by `process_image`. -/
structure VisionResults where
  labels : List Label
  faces : List FaceSignal
  text : String
  safe_search : SafeSearch
  objects : List ObjSignal
deriving DecidableEq, Repr

/-- The `image_info` dict assembled by `process_image`. -/
structure ImageInfo where
  width : Nat
  height : Nat
  format : String
  mode : String
deriving DecidableEq, Repr

/-- Per-frame analysis record built by `process_video` for each sampled
frame. -/
structure FrameResult where
  frame : String
  faces : List FaceSignal
  labels : List Label
deriving DecidableEq, Repr

/-- The `text_stats` dict computed by `process_text`. -/
structure TextStats where
  char_count : Nat
  word_count : Nat
  sentence_count : Nat
  paragraph_count : Nat
deriving DecidableEq, Repr

/-- `sum(f["detection_confidence"] for f in faces) / len(faces)`. -/
def avgConfidence (faces : List FaceSignal) : ℚ :=
  (faces.map FaceSignal.detection_confidence).sum / faces.length

/-- The faces counted by the blurred-face check: the code tests the
substring `"LIKELY" in f["blurred_likelihood"]` on the likelihood name. -/
def blurredCount (faces : List FaceSignal) : Nat :=
  (faces.filter (fun f => containsSub "LIKELY" f.blurred_likelihood.name)).length

/-- The artificial-content terms scanned for in label descriptions. -/
def artificialTerms : List String :=
  ["artificial", "synthetic", "generated", "fake", "computer"]

/-- `[l for l in labels if any(term in l["description"].lower() ...)]`. -/
def artificialLabels (labels : List Label) : List Label :=
  labels.filter (fun l =>
    artificialTerms.any (fun term => containsSub term l.description.toLower))

/-- `safe_search.get("spoof") in ["LIKELY", "VERY_LIKELY"]`. -/
def spoofLikely (ss : SafeSearch) : Bool :=
  ss.spoof = Likelihood.LIKELY ∨ ss.spoof = Likelihood.VERY_LIKELY

/-- Triggered image risk factors; each constructor stands for one of the
formatted factor strings appended by `_calculate_image_credibility`,
carrying the interpolated values. -/
inductive ImageFactor
  | lowFaceConfidence
  | blurredFaces (count : Nat)
  | spoofDetected
  | artificialContent (descriptions : List String)
deriving DecidableEq, Repr

/-- The `explanation` dict returned by `_calculate_image_credibility`. -/
structure ImageExplanation where
  primary_factors : List ImageFactor
  face_count : Nat
  artificial_labels : Nat
  image_quality : String
deriving DecidableEq, Repr

/-- `MediaProcessor._calculate_image_credibility`, line by line:
base 0.8, sequential penalty subtraction, final clamp to [0,1]. -/
def calculateImageCredibility (vr : VisionResults) (ii : ImageInfo) :
    ℚ × ImageExplanation :=
  let score : ℚ := 8/10
  let factors : List ImageFactor := []
  let faces := vr.faces
  let sf : ℚ × List ImageFactor :=
    if faces.length > 0 then
      let sf1 :=
        if avgConfidence faces < 7/10 then
          (score - 3/10, factors ++ [ImageFactor.lowFaceConfidence])
        else (score, factors)
      let bc := blurredCount faces
      if bc > 0 then (sf1.1 - 2/10, sf1.2 ++ [ImageFactor.blurredFaces bc])
      else sf1
    else (score, factors)
  let sf :=
    if spoofLikely vr.safe_search then
      (sf.1 - 4/10, sf.2 ++ [ImageFactor.spoofDetected])
    else sf
  let artLabels := artificialLabels vr.labels
  let sf :=
    if artLabels.length > 0 then
      (sf.1 - 3/10,
       sf.2 ++ [ImageFactor.artificialContent (artLabels.map Label.description)])
    else sf
  (clamp01 sf.1,
   { primary_factors := sf.2
     face_count := faces.length
     artificial_labels := artLabels.length
     image_quality := if ii.width > 1000 then "high" else "medium" })

/-- The AI-disclaimer phrases the video transcript is scanned for. -/
def aiPhrases : List String :=
  ["as an ai", "i cannot", "i don\x27t have personal"]

/-- Triggered video risk factors. -/
inductive VideoFactor
  | inconsistentFaces
  | lowFaceConfidence
  | aiSpeechPatterns
  | lowResolution
deriving DecidableEq, Repr

/-- The `video_info` dict returned by `_get_video_info`. -/
structure MediaInfo where
  duration : ℚ
  size : Nat
  width : Nat
  height : Nat
  fps : ℚ
  codec : String
deriving DecidableEq, Repr

/-- The `explanation` dict returned by `_calculate_video_credibility`. -/
structure VideoExplanation where
  primary_factors : List VideoFactor
  frame_count_analyzed : Nat
  transcript_length : Nat
  video_duration : ℚ
deriving DecidableEq, Repr

/-- Python `max(l)` for a nonempty list of naturals. -/
def natMax (l : List Nat) : Nat := l.foldl max 0

/-- Python `min(l)` for a nonempty list of naturals. -/
def natMin : List Nat → Nat
  | [] => 0
  | h :: t => t.foldl min h

/-- `MediaProcessor._calculate_video_credibility`: base 0.75, sequential
penalty subtraction, final clamp to [0,1]. -/
def calculateVideoCredibility (frame_results : List FrameResult)
    (transcript : String) (vi : MediaInfo) : ℚ × VideoExplanation :=
  let score : ℚ := 3/4
  let factors : List VideoFactor := []
  let face_counts := frame_results.map (fun fr => fr.faces.length)
  let sf : ℚ × List VideoFactor :=
    if face_counts.length > 0 then
      let face_variance := natMax face_counts - natMin face_counts
      let sf1 :=
        if face_variance > 2 then
          (score - 2/10, factors ++ [VideoFactor.inconsistentFaces])
        else (score, factors)
      let all_faces := frame_results.flatMap FrameResult.faces
      if all_faces.length > 0 then
        if avgConfidence all_faces < 6/10 then
          (sf1.1 - 3/10, sf1.2 ++ [VideoFactor.lowFaceConfidence])
        else sf1
      else sf1
    else (score, factors)
  let sf :=
    if transcript ≠ "" then
      if aiPhrases.any (fun phrase => containsSub phrase transcript.toLower) then
        (sf.1 - 4/10, sf.2 ++ [VideoFactor.aiSpeechPatterns])
      else sf
    else sf
  let sf :=
    if vi.width < 720 then (sf.1 - 1/10, sf.2 ++ [VideoFactor.lowResolution])
    else sf
  (clamp01 sf.1,
   { primary_factors := sf.2
     frame_count_analyzed := frame_results.length
     transcript_length := if transcript ≠ "" then (pySplit transcript).length else 0
     video_duration := vi.duration })

/-- Triggered text risk factors. -/
inductive TextFactor
  | aiPatterns (hits : List String)
  | longSentences
  | shortSentences
  | repetition
deriving DecidableEq, Repr

/-- The `explanation` dict returned by `_calculate_text_credibility`. -/
structure TextExplanation where
  primary_factors : List TextFactor
  text_length : Nat
  ai_patterns_count : Nat
  structure_analysis : String
deriving DecidableEq, Repr

/-- `MediaProcessor._calculate_text_credibility`: base 0.9, sequential
penalty subtraction, final clamp to [0,1]. -/
def calculateTextCredibility (text : String) (stats : TextStats)
    (ai_patterns : List String) : ℚ × TextExplanation :=
  let score : ℚ := 9/10
  let factors : List TextFactor := []
  let sf : ℚ × List TextFactor :=
    if ai_patterns.length > 0 then
      (score - min (6/10) ((ai_patterns.length : ℚ) * (2/10)),
       factors ++ [TextFactor.aiPatterns ai_patterns])
    else (score, factors)
  let sf :=
    if stats.word_count > 0 then
      let avg_sentence_length : ℚ :=
        (stats.word_count : ℚ) / (max 1 stats.sentence_count : Nat)
      if avg_sentence_length > 30 then
        (sf.1 - 1/10, sf.2 ++ [TextFactor.longSentences])
      else if avg_sentence_length < 5 then
        (sf.1 - 1/10, sf.2 ++ [TextFactor.shortSentences])
      else sf
    else sf
  let words := pySplit text.toLower
  let sf :=
    if words.length > 10 then
      let repetition_ratio : ℚ := (words.dedup.length : ℚ) / (words.length : ℚ)
      if repetition_ratio < 3/10 then
        (sf.1 - 2/10, sf.2 ++ [TextFactor.repetition])
      else sf
    else sf
  (clamp01 sf.1,
   { primary_factors := sf.2
     text_length := stats.word_count
     ai_patterns_count := ai_patterns.length
     structure_analysis := if sf.2 = [] then "normal" else "suspicious" })

/-! ## Video metadata probe (`_get_video_info`) -/

/-- Python exceptions relevant to the pipeline, modelled as values. -/
inductive PyErr
  | videoTooLong (duration cap : ℚ)
  | zeroDivision
  | valueErr (msg : String)
  | providerErr (msg : String)
  | unsupportedType (t : String)
deriving DecidableEq, Repr

/-- One stream object of the parsed ffprobe JSON, with the fields
`_get_video_info` reads; `r_frame_rate` is the fraction string `"n/d"`
modelled as the pair `(n, d)`. -/
structure StreamObj where
  codec_type : String
  width : Option Nat
  height : Option Nat
  r_frame_rate : Option (Nat × Nat)
  codec_name : Option String
deriving DecidableEq, Repr

/-- The format object of the parsed ffprobe JSON. -/
structure FormatObj where
  duration : Option ℚ
  size : Option Nat
deriving DecidableEq, Repr

/-- The parsed ffprobe JSON; a missing `format` or `streams` key raises
`KeyError` in the code. -/
structure FFProbeJson where
  format : Option FormatObj
  streams : Option (List StreamObj)
deriving DecidableEq, Repr

/-- Outcome of running the ffprobe subprocess and decoding its stdout. -/
inductive ProbeOut
  | procError
  | jsonError
  | parsed (j : FFProbeJson)
deriving DecidableEq, Repr

/-- The zeroed metadata returned on a caught probe failure. -/
def zeroedMediaInfo : MediaInfo :=
  { duration := 0, size := 0, width := 0, height := 0, fps := 0
    codec := "unknown" }

/-- Python `eval` of an ffprobe `r_frame_rate` fraction string `"n/d"`:
raises `ZeroDivisionError` when the denominator is `0`. -/
def evalFrameRate : Nat × Nat → Except PyErr ℚ
  | (_, 0) => .error .zeroDivision
  | (n, d) => .ok ((n : ℚ) / (d : ℚ))

/-- `MediaProcessor._get_video_info`: the `try` block catches exactly
`CalledProcessError`, `JSONDecodeError` and `KeyError` and degrades to
`zeroedMediaInfo`; any other exception (here: `ZeroDivisionError` from
`eval` on a zero-denominator frame rate) propagates as `.error`. -/
def getVideoInfo (p : ProbeOut) : Except PyErr MediaInfo :=
  match p with
  | .procError => .ok zeroedMediaInfo
  | .jsonError => .ok zeroedMediaInfo
  | .parsed j =>
    match j.streams, j.format with
    | none, _ => .ok zeroedMediaInfo
    | _, none => .ok zeroedMediaInfo
    | some streams, some fmt =>
      let video_stream : StreamObj :=
        match streams.find? (fun s => s.codec_type = "video") with
        | some s => s
        | none =>
          { codec_type := "", width := none, height := none
            r_frame_rate := none, codec_name := none }
      match evalFrameRate (video_stream.r_frame_rate.getD (0, 1)) with
      | .error e => .error e
      | .ok fps =>
        .ok { duration := fmt.duration.getD 0
              size := fmt.size.getD 0
              width := video_stream.width.getD 0
              height := video_stream.height.getD 0
              fps := fps
              codec := video_stream.codec_name.getD "unknown" }

/-! ## Video pipeline (`process_video`) -/

/-- Worker configuration (`Config`): the video duration cap and frame
sampling rate, from environment variables with defaults 300 and 1. -/
structure Config where
  maxVideoDuration : ℚ
  frameSampleRate : Nat
deriving DecidableEq, Repr

/-- The default configuration values. -/
def defaultConfig : Config := { maxVideoDuration := 300, frameSampleRate := 1 }

/-- `frame_paths[::max(1, len(frame_paths) // 10)]` in `process_video`. -/
def sampleFrames {α : Type} (frame_paths : List α) : List α :=
  pySliceStep frame_paths (max 1 (frame_paths.length / 10))

/-- External side effects `process_video` can invoke, in order. -/
inductive CallEv
  | download
  | probe
  | extractFrames
  | extractAudio
  | annotateFrame (frame : String)
  | transcribe
deriving DecidableEq, Repr

/-- The environment a video job runs against: the probe outcome, the
per-extracted-frame annotation results the provider would return, whether
the extracted audio file exists and is non-empty, and the transcription
result (`_transcribe_audio` itself returns `""` on failure). -/
structure VideoEnv where
  probe : ProbeOut
  frames : List FrameResult
  audioNonEmpty : Bool
  transcriptResult : String
deriving Repr

/-- `MediaProcessor.process_video` as a state-free step sequence over a
`VideoEnv`, returning the result (or the propagated exception) together
with the trace of external calls it performed. -/
def processVideo (cfg : Config) (env : VideoEnv) :
    Except PyErr (ℚ × VideoExplanation) × List CallEv :=
  let trace := [CallEv.download, CallEv.probe]
  match getVideoInfo env.probe with
  | .error e => (.error e, trace)
  | .ok video_info =>
    if video_info.duration > cfg.maxVideoDuration then
      (.error (.videoTooLong video_info.duration cfg.maxVideoDuration), trace)
    else
      let trace := trace ++ [CallEv.extractFrames, CallEv.extractAudio]
      let sampled := sampleFrames env.frames
      let trace := trace ++ sampled.map (fun fr => CallEv.annotateFrame fr.frame)
      let transcript :=
        if env.audioNonEmpty then env.transcriptResult else ""
      let trace := trace ++ (if env.audioNonEmpty then [CallEv.transcribe] else [])
      (.ok (calculateVideoCredibility sampled transcript video_info), trace)

/-! ## Job status state machine and report store (`Worker`) -/

/-- Job status values written by `_update_analysis_status`. -/
inductive Status
  | queued
  | processing
  | done
  | failed
deriving DecidableEq, Repr

/-- The status updates `process_job` performs for one job, given the
pipeline outcome and whether the success-path report insert succeeds:
`processing` first, then `done` on full success, else `failed` from the
`except` handler. -/
def jobStatusTrace {α : Type} (pipeline : Except PyErr α)
    (storeOk : Bool) : List Status :=
  match pipeline with
  | .ok _ =>
    if storeOk then [Status.processing, Status.done]
    else [Status.processing, Status.failed]
  | .error _ => [Status.processing, Status.failed]

/-- The explanation payload persisted with a report: either the scoring
engine's explanation or the error record
`\x7b"error": str(e), "status": "failed"\x7d` built by the handler. -/
inductive ReportExplanation (α : Type)
  | fromScoring (e : α)
  | fromFailure (e : PyErr)
deriving DecidableEq, Repr

/-- A report as persisted by `_store_results` for one job. -/
structure StoredReport (α : Type) where
  analysis_id : String
  credibility_score : Option ℚ
  explanation : ReportExplanation α
deriving DecidableEq, Repr

/-- The reports `process_job` persists for one job: the scored report on
success, or (from the handler) a report with `credibility_score = None`
carrying the error; `handlerStoreOk = false` models the handler's own
insert failing, which stores nothing and propagates to the outer loop. -/
def jobStoredReports {α : Type} (aid : String)
    (pipeline : Except PyErr (ℚ × α)) (storeOk handlerStoreOk : Bool) :
    List (StoredReport α) :=
  match pipeline with
  | .ok r =>
    if storeOk then
      [{ analysis_id := aid, credibility_score := some r.1
         explanation := .fromScoring r.2 }]
    else if handlerStoreOk then
      [{ analysis_id := aid, credibility_score := none
         explanation := .fromFailure (.providerErr "insert failed") }]
    else []
  | .error e =>
    if handlerStoreOk then
      [{ analysis_id := aid, credibility_score := none
         explanation := .fromFailure e }]
    else []

/-- One dequeued job together with the outcome its processing environment
determines: the pipeline result and whether each report insert succeeds. -/
structure JobRun (α : Type) where
  analysis_id : String
  pipeline : Except PyErr (ℚ × α)
  storeOk : Bool
  handlerStoreOk : Bool

/-- One run of `Worker.start`'s dequeue loop over a finite queue: every
per-job exception is contained, so each job yields its status trace and
stored reports and the loop always reaches the next job. -/
def runWorker {α : Type} (jobs : List (JobRun α)) :
    List (List Status × List (StoredReport α)) :=
  jobs.map (fun j =>
    (jobStatusTrace j.pipeline j.storeOk,
     jobStoredReports j.analysis_id j.pipeline j.storeOk j.handlerStoreOk))

/-! ## Report upsert (`_store_results`) -/

/-- One row of `analysis_reports`. -/
structure ReportRow where
  id : Nat
  analysis_id : String
  credibility_score : Option ℚ
  explanation : String
  artifacts : String
  version : String
  created_at : Nat
deriving DecidableEq, Repr

/-- The SQL upsert in `_store_results`:
`INSERT ... ON CONFLICT (analysis_id) DO UPDATE SET` overwrites
`credibility_score`, `explanation`, `artifacts` and `version` of the
existing row and keeps its `id` and `created_at`; with no conflicting row
the new row is inserted. -/
def upsertReport (table : List ReportRow) (r : ReportRow) : List ReportRow :=
  if table.any (fun x => x.analysis_id = r.analysis_id) then
    table.map (fun x =>
      if x.analysis_id = r.analysis_id then
        { x with credibility_score := r.credibility_score
                 explanation := r.explanation
                 artifacts := r.artifacts
                 version := r.version }
      else x)
  else table ++ [r]

/-- `Worker._store_results`: builds the row with a fresh `id`, the current
time as `created_at` and version `"v1.0"`, then upserts it. -/
def storeResults (table : List ReportRow) (aid : String)
    (score : Option ℚ) (explanation artifacts : String)
    (freshId now : Nat) : List ReportRow :=
  upsertReport table
    { id := freshId, analysis_id := aid, credibility_score := score
      explanation := explanation, artifacts := artifacts
      version := "v1.0", created_at := now }

/-! ## Rule-table characterization of the scoring functions -/

/-- Penalty weight of each image factor. -/
def imagePenalty : ImageFactor → ℚ
  | .lowFaceConfidence => 3/10
  | .blurredFaces _ => 2/10
  | .spoofDetected => 4/10
  | .artificialContent _ => 3/10

/-- Penalty weight of each video factor. -/
def videoPenalty : VideoFactor → ℚ
  | .inconsistentFaces => 2/10
  | .lowFaceConfidence => 3/10
  | .aiSpeechPatterns => 4/10
  | .lowResolution => 1/10

/-- Penalty weight of each text factor. -/
def textPenalty : TextFactor → ℚ
  | .aiPatterns hits => min (6/10) ((hits.length : ℚ) * (2/10))
  | .longSentences => 1/10
  | .shortSentences => 1/10
  | .repetition => 2/10

/-- The image factors whose trigger condition holds, in rule order. -/
def imageTriggeredFactors (vr : VisionResults) : List ImageFactor :=
  (if vr.faces.length > 0 ∧ avgConfidence vr.faces < 7/10 then
    [ImageFactor.lowFaceConfidence] else []) ++
  (if vr.faces.length > 0 ∧ blurredCount vr.faces > 0 then
    [ImageFactor.blurredFaces (blurredCount vr.faces)] else []) ++
  (if spoofLikely vr.safe_search then [ImageFactor.spoofDetected] else []) ++
  (if (artificialLabels vr.labels).length > 0 then
    [ImageFactor.artificialContent ((artificialLabels vr.labels).map Label.description)]
   else [])

/-- The video factors whose trigger condition holds, in rule order. -/
def videoTriggeredFactors (frame_results : List FrameResult)
    (transcript : String) (vi : MediaInfo) : List VideoFactor :=
  (if (frame_results.map (fun fr => fr.faces.length)).length > 0 ∧
      natMax (frame_results.map (fun fr => fr.faces.length)) -
        natMin (frame_results.map (fun fr => fr.faces.length)) > 2 then
    [VideoFactor.inconsistentFaces] else []) ++
  (if (frame_results.map (fun fr => fr.faces.length)).length > 0 ∧
      (frame_results.flatMap FrameResult.faces).length > 0 ∧
      avgConfidence (frame_results.flatMap FrameResult.faces) < 6/10 then
    [VideoFactor.lowFaceConfidence] else []) ++
  (if transcript ≠ "" ∧
      aiPhrases.any (fun phrase => containsSub phrase transcript.toLower) then
    [VideoFactor.aiSpeechPatterns] else []) ++
  (if vi.width < 720 then [VideoFactor.lowResolution] else [])

/-- The text factors whose trigger condition holds, in rule order. -/
def textTriggeredFactors (text : String) (stats : TextStats)
    (ai_patterns : List String) : List TextFactor :=
  (if ai_patterns.length > 0 then [TextFactor.aiPatterns ai_patterns] else []) ++
  (if stats.word_count > 0 ∧
      (stats.word_count : ℚ) / (max 1 stats.sentence_count : Nat) > 30 then
    [TextFactor.longSentences] else []) ++
  (if stats.word_count > 0 ∧
      (stats.word_count : ℚ) / (max 1 stats.sentence_count : Nat) < 5 then
    [TextFactor.shortSentences] else []) ++
  (if (pySplit text.toLower).length > 10 ∧
      ((pySplit text.toLower).dedup.length : ℚ) /
        ((pySplit text.toLower).length : ℚ) < 3/10 then
    [TextFactor.repetition] else [])

lemma clamp01_nonneg (q : ℚ) : 0 ≤ clamp01 q := le_max_left 0 _

lemma clamp01_le_one (q : ℚ) : clamp01 q ≤ 1 :=
  max_le zero_le_one (min_le_left 1 q)

set_option maxHeartbeats 2000000 in
/-- `_calculate_image_credibility` computes exactly the triggered rule
list and the clamp of the base minus the triggered penalties. -/
lemma calculateImageCredibility_eq (vr : VisionResults) (ii : ImageInfo) :
    calculateImageCredibility vr ii =
      (clamp01 (8/10 - ((imageTriggeredFactors vr).map imagePenalty).sum),
       { primary_factors := imageTriggeredFactors vr
         face_count := vr.faces.length
         artificial_labels := (artificialLabels vr.labels).length
         image_quality := if ii.width > 1000 then "high" else "medium" }) := by
  simp only [calculateImageCredibility, imageTriggeredFactors]
  split_ifs <;> first
    | tauto
    | (simp [imagePenalty] <;> norm_num [clamp01])

set_option maxHeartbeats 2000000 in
/-- `_calculate_video_credibility` computes exactly the triggered rule
list and the clamp of the base minus the triggered penalties. -/
lemma calculateVideoCredibility_eq (frame_results : List FrameResult)
    (transcript : String) (vi : MediaInfo) :
    calculateVideoCredibility frame_results transcript vi =
      (clamp01 (3/4 -
        ((videoTriggeredFactors frame_results transcript vi).map videoPenalty).sum),
       { primary_factors := videoTriggeredFactors frame_results transcript vi
         frame_count_analyzed := frame_results.length
         transcript_length :=
           if transcript ≠ "" then (pySplit transcript).length else 0
         video_duration := vi.duration }) := by
  simp only [calculateVideoCredibility, videoTriggeredFactors]
  split_ifs <;> first
    | tauto
    | (simp [videoPenalty] <;> norm_num [clamp01])

set_option maxHeartbeats 2000000 in
/-- `_calculate_text_credibility` computes exactly the triggered rule
list and the clamp of the base minus the triggered penalties. -/
lemma calculateTextCredibility_eq (text : String) (stats : TextStats)
    (ai_patterns : List String) :
    calculateTextCredibility text stats ai_patterns =
      (clamp01 (9/10 -
        ((textTriggeredFactors text stats ai_patterns).map textPenalty).sum),
       { primary_factors := textTriggeredFactors text stats ai_patterns
         text_length := stats.word_count
         ai_patterns_count := ai_patterns.length
         structure_analysis :=
           if textTriggeredFactors text stats ai_patterns = [] then "normal"
           else "suspicious" }) := by
  simp only [calculateTextCredibility, textTriggeredFactors]
  by_cases h1 : ai_patterns.length > 0 <;>
  by_cases h4 : stats.word_count > 0 <;>
  by_cases h2 : (stats.word_count : ℚ) / (max 1 stats.sentence_count : Nat) > 30 <;>
  by_cases h3 : (stats.word_count : ℚ) / (max 1 stats.sentence_count : Nat) < 5 <;>
  by_cases h5 : (pySplit text.toLower).length > 10 <;>
  by_cases h6 : ((pySplit text.toLower).dedup.length : ℚ) /
      ((pySplit text.toLower).length : ℚ) < 3/10 <;>
  first
  | (exfalso; linarith)
  | (simp only [h1, h2, h3, h4, h5, h6, if_true, if_false, ite_true, ite_false,
      true_and, and_true, false_and, and_false, List.nil_append, List.append_nil,
      List.cons_append, List.singleton_append, List.map_cons, List.map_nil,
      List.sum_cons, List.sum_nil, textPenalty, Prod.mk.injEq,
      TextExplanation.mk.injEq, List.cons_ne_nil, not_true, not_false_iff] <;>
     norm_num [clamp01] <;> ring_nf)

/-- Membership in an if-guarded singleton block. -/
lemma mem_ite_singleton {β : Type} (a b : β) (c : Prop) [Decidable c] :
    (a ∈ (if c then [b] else [])) ↔ c ∧ a = b := by
  split <;> simp_all

/-! ## Concrete inputs used by witnesses and counterexamples -/

/-- A safe-search result with every category `VERY_UNLIKELY`. -/
def calmSafeSearch : SafeSearch :=
  { adult := .VERY_UNLIKELY, spoof := .VERY_UNLIKELY, medical := .VERY_UNLIKELY
    violence := .VERY_UNLIKELY, racy := .VERY_UNLIKELY }

/-- A high-confidence face whose blurred likelihood is `UNLIKELY`. -/
def c4Face : FaceSignal :=
  { detection_confidence := 9/10, joy_likelihood := .VERY_UNLIKELY
    anger_likelihood := .VERY_UNLIKELY, surprise_likelihood := .VERY_UNLIKELY
    under_exposed_likelihood := .VERY_UNLIKELY, blurred_likelihood := .UNLIKELY
    headwear_likelihood := .VERY_UNLIKELY }

/-- Image signals with the single `UNLIKELY`-blurred face and no other
risk indicator. -/
def c4Vision : VisionResults :=
  { labels := [], faces := [c4Face], text := ""
    safe_search := calmSafeSearch, objects := [] }

/-- A plain image info record. -/
def c4Info : ImageInfo :=
  { width := 800, height := 600, format := "JPEG", mode := "RGB" }

/-- Image signals with no faces, no spoof, no artificial labels. -/
def c10Vision : VisionResults :=
  { labels := [], faces := []
    text := "", safe_search := calmSafeSearch, objects := [] }

/-- Text stats of an empty text. -/
def c5Stats : TextStats :=
  { char_count := 0, word_count := 0, sentence_count := 0, paragraph_count := 0 }

/-- A probe output whose video stream reports the frame rate `0/0`. -/
def c9Probe : ProbeOut :=
  .parsed { format := some { duration := some 10, size := some 12345 }
            streams := some [{ codec_type := "video", width := some 1920
                               height := some 1080, r_frame_rate := some (0, 0)
                               codec_name := some "h264" }] }

/-- A video environment whose probe reports frame rate `0/0`. -/
def c9Env : VideoEnv :=
  { probe := c9Probe, frames := [], audioNonEmpty := false
    transcriptResult := "" }

/-- A probe output reporting a 301-second video with no video stream. -/
def c3Probe : ProbeOut :=
  .parsed { format := some { duration := some 301, size := some 1000 }
            streams := some [] }

/-- A video environment for the 301-second video. -/
def c3Env : VideoEnv :=
  { probe := c3Probe, frames := [], audioNonEmpty := false
    transcriptResult := "" }

/-- The metadata the probe yields for the 301-second video. -/
def c3Info : MediaInfo :=
  { duration := 301, size := 1000, width := 0, height := 0, fps := 0
    codec := "unknown" }

/-- A job whose pipeline raises a provider error. -/
def c8Job : JobRun String :=
  { analysis_id := "job-err", pipeline := .error (PyErr.providerErr "vision failed")
    storeOk := true, handlerStoreOk := true }

/-! ## Claim theorems -/

/-- C1: each of the three scoring functions returns a score in [0,1]; its
explanation's `primary_factors` is exactly the list of triggered rules, and
the score is the clamp of the base minus the sum of exactly those factors'
penalties, so the list never carries an untriggered rule and every listed
factor's penalty was subtracted. -/
theorem scores_bounded_and_factors_triggered :
    (∀ (vr : VisionResults) (ii : ImageInfo),
      0 ≤ (calculateImageCredibility vr ii).1 ∧
      (calculateImageCredibility vr ii).1 ≤ 1 ∧
      (calculateImageCredibility vr ii).2.primary_factors = imageTriggeredFactors vr ∧
      (calculateImageCredibility vr ii).1 =
        clamp01 (8/10 -
          (((calculateImageCredibility vr ii).2.primary_factors).map imagePenalty).sum)) ∧
    (∀ (frs : List FrameResult) (tr : String) (vi : MediaInfo),
      0 ≤ (calculateVideoCredibility frs tr vi).1 ∧
      (calculateVideoCredibility frs tr vi).1 ≤ 1 ∧
      (calculateVideoCredibility frs tr vi).2.primary_factors =
        videoTriggeredFactors frs tr vi ∧
      (calculateVideoCredibility frs tr vi).1 =
        clamp01 (3/4 -
          (((calculateVideoCredibility frs tr vi).2.primary_factors).map videoPenalty).sum)) ∧
    (∀ (text : String) (stats : TextStats) (ai_patterns : List String),
      0 ≤ (calculateTextCredibility text stats ai_patterns).1 ∧
      (calculateTextCredibility text stats ai_patterns).1 ≤ 1 ∧
      (calculateTextCredibility text stats ai_patterns).2.primary_factors =
        textTriggeredFactors text stats ai_patterns ∧
      (calculateTextCredibility text stats ai_patterns).1 =
        clamp01 (9/10 -
          (((calculateTextCredibility text stats ai_patterns).2.primary_factors).map
            textPenalty).sum)) := by
  refine ⟨fun vr ii => ?_, fun frs tr vi => ?_, fun text stats ai_patterns => ?_⟩
  · rw [calculateImageCredibility_eq]
    exact ⟨clamp01_nonneg _, clamp01_le_one _, rfl, rfl⟩
  · rw [calculateVideoCredibility_eq]
    exact ⟨clamp01_nonneg _, clamp01_le_one _, rfl, rfl⟩
  · rw [calculateTextCredibility_eq]
    exact ⟨clamp01_nonneg _, clamp01_le_one _, rfl, rfl⟩

/-- C2: the subsampling step `frame_paths[::max(1, total // 10)]` takes
indices 0, k, 2k, … in order — exactly 10 frames for 100 extracted — but
does NOT bound the sample by 10: with 11 extracted frames the stride is 1
and all 11 frames are analyzed, contradicting the code's own
`Max 10 frames` comment. -/
theorem frame_sampling_cap_violated :
    sampleFrames (List.range 100) =
      [0, 10, 20, 30, 40, 50, 60, 70, 80, 90] ∧
    (sampleFrames (List.range 100)).length = 10 ∧
    sampleFrames (List.range 11) = List.range 11 ∧
    (sampleFrames (List.range 11)).length = 11 := by
  refine ⟨by decide, by decide, by decide, by decide⟩

/-- C3: whenever the probe yields a duration above the configured cap,
`process_video` raises before frame or audio extraction — neither
extraction call appears in the trace — and the job ends `Failed`. -/
theorem video_too_long_fails_before_extraction :
    ∀ (cfg : Config) (env : VideoEnv) (info : MediaInfo),
      getVideoInfo env.probe = .ok info →
      info.duration > cfg.maxVideoDuration →
      (processVideo cfg env).1 =
        .error (PyErr.videoTooLong info.duration cfg.maxVideoDuration) ∧
      CallEv.extractFrames ∉ (processVideo cfg env).2 ∧
      CallEv.extractAudio ∉ (processVideo cfg env).2 ∧
      ∀ storeOk : Bool,
        jobStatusTrace (processVideo cfg env).1 storeOk =
          [Status.processing, Status.failed] := by
  intro cfg env info h hd
  simp only [processVideo]
  rw [h]
  simp [hd, jobStatusTrace]

/-- C3 witness: a 301-second probe result against the default 300-second
cap. -/
theorem video_too_long_fails_before_extraction_witness :
    (processVideo defaultConfig c3Env).1 =
      .error (PyErr.videoTooLong 301 300) ∧
    CallEv.extractFrames ∉ (processVideo defaultConfig c3Env).2 ∧
    CallEv.extractAudio ∉ (processVideo defaultConfig c3Env).2 ∧
    jobStatusTrace (processVideo defaultConfig c3Env).1 true =
      [Status.processing, Status.failed] := by
  obtain ⟨a, b, c, d⟩ :=
    video_too_long_fails_before_extraction defaultConfig c3Env c3Info
      (by norm_num [c3Env, c3Probe, c3Info, getVideoInfo, evalFrameRate])
      (by norm_num [c3Info, defaultConfig])
  exact ⟨a, b, c, d true⟩

/-- C4: the blurred-face check tests `"LIKELY" in likelihood_name` as a
substring, so a face whose blurred likelihood is `UNLIKELY` (below
`LIKELY`) still triggers the 0.20 penalty: with one high-confidence
`UNLIKELY`-blurred face and no other indicator the score is
0.8 − 0.2 = 0.6 and the blurred-faces factor is listed. -/
theorem blur_penalty_fires_on_unlikely :
    c4Face.blurred_likelihood = Likelihood.UNLIKELY ∧
    containsSub "LIKELY" Likelihood.UNLIKELY.name = true ∧
    containsSub "LIKELY" Likelihood.VERY_UNLIKELY.name = true ∧
    (calculateImageCredibility c4Vision c4Info).1 = 3/5 ∧
    (calculateImageCredibility c4Vision c4Info).2.primary_factors =
      [ImageFactor.blurredFaces 1] := by
  have hface : c4Vision.faces.length > 0 := by decide
  have havg : ¬ (avgConfidence c4Vision.faces < 7/10) := by
    norm_num [avgConfidence, c4Vision, c4Face]
  have hblur : blurredCount c4Vision.faces = 1 := by decide
  have hspoof : ¬ (spoofLikely c4Vision.safe_search = true) := by decide
  have hart : artificialLabels c4Vision.labels = [] := by decide
  have hfacts : imageTriggeredFactors c4Vision = [ImageFactor.blurredFaces 1] := by
    simp [imageTriggeredFactors, hface, havg, hblur, hspoof, hart]
  rw [calculateImageCredibility_eq]
  refine ⟨rfl, by decide, by decide, ?_, by simp [hfacts]⟩
  rw [hfacts]
  norm_num [imagePenalty, clamp01, min_def, max_def]

/-- C5 counterexample: for an empty text (`word_count = 0`) the average
sentence length `0 / max(1, 0) = 0` is below 5, yet no sentence-length
penalty is subtracted and no factor is listed, because the whole check is
guarded by `word_count > 0`. -/
theorem sentence_rule_skipped_on_empty_text :
    ¬ ((TextFactor.longSentences ∈
          (calculateTextCredibility "" c5Stats []).2.primary_factors ∨
        TextFactor.shortSentences ∈
          (calculateTextCredibility "" c5Stats []).2.primary_factors) ↔
       ((c5Stats.word_count : ℚ) / (max 1 c5Stats.sentence_count : Nat) > 30 ∨
        (c5Stats.word_count : ℚ) / (max 1 c5Stats.sentence_count : Nat) < 5)) ∧
    (calculateTextCredibility "" c5Stats []).1 = 9/10 ∧
    (calculateTextCredibility "" c5Stats []).2.primary_factors = [] := by
  have hw : pySplit (String.toLower "") = [] := by
    simp only [String.toLower, String.map_eq]
    rw [pySplit, String.split_of_valid]
    decide
  have h : textTriggeredFactors "" c5Stats [] = [] := by
    simp [textTriggeredFactors, c5Stats, hw]
  refine ⟨?_, ?_, ?_⟩
  · rw [calculateTextCredibility_eq]
    simp only [h]
    simp [c5Stats]
  · rw [calculateTextCredibility_eq]
    rw [h]
    norm_num [clamp01, min_def, max_def]
  · rw [calculateTextCredibility_eq, h]

/-- C5 amended: the 0.10 sentence-length penalty factor is listed if and
only if `word_count > 0` AND the average sentence length
`word_count / max(1, sentence_count)` is above 30 (long) or below 5
(short); texts with `word_count = 0` never receive it. -/
theorem sentence_length_rule_guarded_by_word_count :
    ∀ (text : String) (stats : TextStats) (ai_patterns : List String),
      (TextFactor.longSentences ∈
          (calculateTextCredibility text stats ai_patterns).2.primary_factors ↔
        stats.word_count > 0 ∧
          (stats.word_count : ℚ) / (max 1 stats.sentence_count : Nat) > 30) ∧
      (TextFactor.shortSentences ∈
          (calculateTextCredibility text stats ai_patterns).2.primary_factors ↔
        stats.word_count > 0 ∧
          (stats.word_count : ℚ) / (max 1 stats.sentence_count : Nat) < 5) := by
  intro text stats ai_patterns
  rw [calculateTextCredibility_eq]
  simp [textTriggeredFactors, mem_ite_singleton]

/-- C10: with an empty face list neither face-based rule can trigger, and
with additionally no spoof likelihood and no artificial-content label the
returned score is exactly the 0.8 base with an empty factor list. -/
theorem image_no_faces_base_score :
    ∀ (vr : VisionResults) (ii : ImageInfo),
      vr.faces = [] →
      (ImageFactor.lowFaceConfidence ∉
          (calculateImageCredibility vr ii).2.primary_factors ∧
        ∀ n : Nat, ImageFactor.blurredFaces n ∉
          (calculateImageCredibility vr ii).2.primary_factors) ∧
      (spoofLikely vr.safe_search = false →
        artificialLabels vr.labels = [] →
        (calculateImageCredibility vr ii).1 = 8/10 ∧
        (calculateImageCredibility vr ii).2.primary_factors = []) := by
  intro vr ii h
  rw [calculateImageCredibility_eq]
  constructor
  · simp only [imageTriggeredFactors, h]
    by_cases hs : spoofLikely vr.safe_search = true <;>
    by_cases ha : (artificialLabels vr.labels).length > 0 <;>
    simp [hs, ha]
  · intro hs ha
    simp [imageTriggeredFactors, h, hs, ha, clamp01]
    norm_num [sup_eq_max, inf_eq_min, min_def, max_def]

/-- C10 witness: an image with one landscape label, no faces, no spoof. -/
theorem image_no_faces_base_score_witness :
    (calculateImageCredibility c10Vision c4Info).1 = 8/10 ∧
    (calculateImageCredibility c10Vision c4Info).2.primary_factors = [] :=
  (image_no_faces_base_score c10Vision c4Info rfl).2 (by decide) (by decide)

/-- C6: upserting a report twice for the same `analysis_id` into a table
with no prior row for it leaves exactly one row for that id, whose
score/explanation/artifacts/version come from the second write while `id`
and `created_at` remain those of the first write. -/
theorem report_upsert_second_write_wins :
    ∀ (t : List ReportRow) (aid : String) (s1 s2 : Option ℚ)
      (e1 e2 a1 a2 : String) (id1 id2 t1 t2 : Nat),
      (∀ x ∈ t, x.analysis_id ≠ aid) →
      storeResults (storeResults t aid s1 e1 a1 id1 t1) aid s2 e2 a2 id2 t2 =
        t ++ [{ id := id1, analysis_id := aid, credibility_score := s2
                explanation := e2, artifacts := a2, version := "v1.0"
                created_at := t1 }] ∧
      ((storeResults (storeResults t aid s1 e1 a1 id1 t1) aid s2 e2 a2 id2 t2).countP
        (fun x => x.analysis_id = aid)) = 1 := by
  intro t aid s1 s2 e1 e2 a1 a2 id1 id2 t1 t2 hfresh
  have hany : (t.any (fun x => x.analysis_id = aid)) = false := by
    rw [List.any_eq_false]
    intro x hx
    simp [hfresh x hx]
  have hstep1 :
      storeResults t aid s1 e1 a1 id1 t1 =
        t ++ [{ id := id1, analysis_id := aid, credibility_score := s1
                explanation := e1, artifacts := a1, version := "v1.0"
                created_at := t1 }] := by
    simp [storeResults, upsertReport, hany]
  have hmap :
      t.map (fun x =>
        if x.analysis_id = aid then
          { x with credibility_score := s2, explanation := e2
                   artifacts := a2, version := "v1.0" }
        else x) = t := by
    rw [show t = t.map id by simp]
    rw [List.map_map]
    apply List.map_congr_left
    intro x hx
    simp [hfresh x hx]
  constructor
  · rw [hstep1]
    simp [storeResults, upsertReport, List.any_append, List.map_append, hmap]
  · rw [hstep1]
    simp [storeResults, upsertReport, List.any_append, List.map_append, hmap,
      List.countP_append]
    intro x hx
    exact hfresh x hx

/-- C6 witness: two stores for the same id into an empty table. -/
theorem report_upsert_second_write_wins_witness :
    storeResults (storeResults [] "job-1" (some (1/2)) "e1" "a1" 7 100)
        "job-1" (some (3/4)) "e2" "a2" 8 200 =
      [{ id := 7, analysis_id := "job-1", credibility_score := some (3/4)
         explanation := "e2", artifacts := "a2", version := "v1.0"
         created_at := 100 }] ∧
    ((storeResults (storeResults [] "job-1" (some (1/2)) "e1" "a1" 7 100)
        "job-1" (some (3/4)) "e2" "a2" 8 200).countP
      (fun x => x.analysis_id = "job-1")) = 1 :=
  report_upsert_second_write_wins [] "job-1" (some (1/2)) (some (3/4))
    "e1" "e2" "a1" "a2" 7 8 100 200 (by simp)

/-- C7: for any pipeline outcome and store outcome, the status updates
one `process_job` call performs are exactly `Processing` followed by one
terminal status — `Done` on full success, `Failed` otherwise — and nothing
after the terminal one. -/
theorem job_status_transitions_monotone :
    ∀ (α : Type) (pipeline : Except PyErr α) (storeOk : Bool),
      jobStatusTrace pipeline storeOk = [Status.processing, Status.done] ∨
      jobStatusTrace pipeline storeOk = [Status.processing, Status.failed] := by
  intro α pipeline storeOk
  cases pipeline <;> cases storeOk <;> simp [jobStatusTrace]

/-- C8: the consumer loop handles every dequeued job (one trace/report
pair per job, so no per-job failure terminates the run), and a job whose
pipeline raises ends `Failed` with a stored report whose score is absent
and whose explanation carries the error. -/
theorem per_job_errors_contained :
    ∀ (α : Type) (jobs : List (JobRun α)),
      (runWorker jobs).length = jobs.length ∧
      ∀ j ∈ jobs, ∀ e : PyErr, j.pipeline = .error e → j.handlerStoreOk = true →
        jobStatusTrace j.pipeline j.storeOk = [Status.processing, Status.failed] ∧
        jobStoredReports j.analysis_id j.pipeline j.storeOk j.handlerStoreOk =
          [{ analysis_id := j.analysis_id, credibility_score := none
             explanation := ReportExplanation.fromFailure e }] := by
  intro α jobs
  refine ⟨by simp [runWorker], ?_⟩
  intro j hj e he hh
  rw [he]
  simp [jobStatusTrace, jobStoredReports, hh]

/-- C8 witness: a one-job queue whose pipeline raises a provider error. -/
theorem per_job_errors_contained_witness :
    (runWorker [c8Job]).length = [c8Job].length ∧
    jobStatusTrace c8Job.pipeline c8Job.storeOk =
      [Status.processing, Status.failed] ∧
    jobStoredReports c8Job.analysis_id c8Job.pipeline c8Job.storeOk
        c8Job.handlerStoreOk =
      [{ analysis_id := c8Job.analysis_id, credibility_score := none
         explanation := ReportExplanation.fromFailure
           (PyErr.providerErr "vision failed") }] :=
  ⟨(per_job_errors_contained String [c8Job]).1,
   (per_job_errors_contained String [c8Job]).2 c8Job (by simp)
     (PyErr.providerErr "vision failed") rfl rfl⟩

/-- C9 counterexample: a probe output whose video stream carries the
frame-rate fraction `0/0` makes `eval` raise `ZeroDivisionError`, which is
not in the caught exception tuple, so `_get_video_info` raises instead of
returning the zeroed metadata, and the video job fails. -/
theorem probe_zero_den_frame_rate_raises :
    getVideoInfo c9Probe = .error PyErr.zeroDivision ∧
    (processVideo defaultConfig c9Env).1 = .error PyErr.zeroDivision := by
  constructor
  · rfl
  · rfl

/-- C9 amended: probe failures raising `CalledProcessError`,
`JSONDecodeError` or `KeyError` (subprocess failure, undecodable output,
missing `format` or `streams` key) are caught and degrade to the zeroed
`MediaInfo`, after which the job proceeds to frame extraction (for any
nonnegative duration cap); but a malformed zero-denominator frame rate
raises an uncaught `ZeroDivisionError` and aborts the job. -/
theorem probe_caught_failures_degrade :
    (∀ p : ProbeOut,
      (p = ProbeOut.procError ∨ p = ProbeOut.jsonError ∨
        (∃ j, p = ProbeOut.parsed j ∧ (j.streams = none ∨ j.format = none))) →
      getVideoInfo p = .ok zeroedMediaInfo) ∧
    (∀ (cfg : Config) (env : VideoEnv),
      env.probe = ProbeOut.procError →
      (0 : ℚ) ≤ cfg.maxVideoDuration →
      CallEv.extractFrames ∈ (processVideo cfg env).2 ∧
      CallEv.extractAudio ∈ (processVideo cfg env).2) := by
  constructor
  · intro p h
    rcases h with h | h | ⟨j, rfl, hj⟩
    · rw [h]; rfl
    · rw [h]; rfl
    · rcases hj with hs | hf
      · simp [getVideoInfo, hs]
      · cases hst : j.streams <;> simp [getVideoInfo, hf, hst]
  · intro cfg env hp hcap
    have hnot : ¬ (cfg.maxVideoDuration < 0) := not_lt.mpr hcap
    simp [processVideo, hp, getVideoInfo, zeroedMediaInfo, hnot]

/-- C9 witness: a failed ffprobe subprocess degrades to zeroed metadata
and the default-configured job goes on to extract frames. -/
theorem probe_caught_failures_degrade_witness :
    getVideoInfo ProbeOut.procError = .ok zeroedMediaInfo ∧
    CallEv.extractFrames ∈
      (processVideo defaultConfig
        { probe := ProbeOut.procError, frames := [], audioNonEmpty := false
          transcriptResult := "" }).2 :=
  ⟨probe_caught_failures_degrade.1 ProbeOut.procError (Or.inl rfl),
   (probe_caught_failures_degrade.2 defaultConfig
      { probe := ProbeOut.procError, frames := [], audioNonEmpty := false
        transcriptResult := "" } rfl (by norm_num [defaultConfig])).1⟩

end PiShield
